import Mathlib

/-!
# Verification of the spreadsheet-to-test-case core

Shallow embedding of the core services of the airline test-generator
repository and proofs about them:

* `Backend` — the canonical backend (`src/apps/backend`): the
  `ExcelParser` service (header-to-field mapping, row normalization,
  batch parsing, the standalone record validator) and the remote
  provider adapters (`GeminiProvider`, `OpenAIProvider`).
* `AppsCopy` — the provider layer of the duplicated backend
  (`src/apps copy/backend/src/index.ts`): `MockAIProvider` and the
  `AIService` registry.

JavaScript strings are modelled as `String` and, where character-level
operations matter, through their underlying `List Char`; `trim`,
`toLowerCase`, `startsWith` and the anchored header regexes are
embedded explicitly below.  Machine integers do not occur in the
embedded code paths (all counts are small array lengths), so `Nat`
is used throughout.
-/

/-- The ASCII whitespace characters recognized by the JavaScript
`String.prototype.trim` and by the regex class `\s` (restricted to the
ASCII range, which is the only range the embedded data uses). -/
def isJsWs (c : Char) : Bool :=
  c = ' ' || c = '\t' || c = '\n' || c = '\r' || c = '\x0b' || c = '\x0c'

/-- JavaScript `String.prototype.trim` on the character-list view:
drop whitespace from both ends. -/
def trimChars (cs : List Char) : List Char :=
  ((cs.dropWhile isJsWs).reverse.dropWhile isJsWs).reverse

/-- JavaScript `s.trim()`. -/
def jsTrim (s : String) : String := String.mk (trimChars s.data)

/-- JavaScript `toLowerCase` for a single ASCII character. -/
def lowerChar (c : Char) : Char :=
  if 'A' ≤ c && c ≤ 'Z' then Char.ofNat (c.toNat + 32) else c

/-- JavaScript `toLowerCase` on the character-list view (ASCII model). -/
def lowerChars (cs : List Char) : List Char := cs.map lowerChar

/-- JavaScript `s.toLowerCase()`. -/
def jsToLower (s : String) : String := String.mk (lowerChars s.data)

namespace Backend

/-!
## Field pattern registry and header-to-field mapper

From `src/apps/backend/src/services/excel-parser.ts`
(`ExcelParser.columnPatterns`, `ExcelParser.detectColumnMapping`).
-/

/-- One token of an anchored header-recognition regex: a literal run,
the regex `.?` (one optional arbitrary character), or `c?` (one
optional specific character, used for the optional plural `s`). -/
inductive Tok where
  | lit (cs : List Char)
  | anyOpt
  | optChar (c : Char)
deriving DecidableEq

/-- Literal token from a string. -/
def L (s : String) : Tok := Tok.lit s.data

/-- Anchored matching of a token sequence against a whole string
(character list).  The alternation inside `anyOpt` / `optChar`
implements the regex `?`: the full match succeeds if either choice
lets the remaining tokens consume the rest of the input. -/
def matchToks : List Tok → List Char → Bool
  | [], cs => cs.isEmpty
  | Tok.lit l :: ts, cs => l.isPrefixOf cs && matchToks ts (cs.drop l.length)
  | Tok.anyOpt :: ts, cs =>
      matchToks ts cs ||
        (match cs with
         | [] => false
         | _ :: cs2 => matchToks ts cs2)
  | Tok.optChar c :: ts, cs =>
      matchToks ts cs ||
        (match cs with
         | [] => false
         | c2 :: cs2 => c2 == c && matchToks ts cs2)

/-- A header pattern `^(alt1|alt2|…)$` matches when some alternative
matches the whole header text. -/
def patMatches (alts : List (List Tok)) (cs : List Char) : Bool :=
  alts.any (fun alt => matchToks alt cs)

/-- The canonical semantic fields of `ColumnMapping`.  The source keys
`when` and `then` are reserved words in Lean and are rendered as
`whenF` and `thenF`. -/
inductive FieldKey where
  | id | description | asA | iWant | soThat | acceptanceCriteria
  | requirements | given | whenF | thenF | notes | acId
deriving DecidableEq

/-- `ExcelParser.columnPatterns`, in the object-literal insertion order
that `Object.entries` iterates.  Each pattern is the list of
alternatives of the source's anchored case-insensitive regex; the
patterns are written lowercase and matched against the lowercased
header, which models the `/i` flag. -/
def columnPatterns : List (FieldKey × List (List Tok)) :=
  [ (.id, [[L "id"], [L "story", .anyOpt, L "id"],
           [L "user", .anyOpt, L "story", .anyOpt, L "id"]]),
    (.description, [[L "description"], [L "story", .anyOpt, L "description"],
                    [L "title"]]),
    (.asA, [[L "as", .anyOpt, L "a"], [L "role"],
            [L "user", .anyOpt, L "role"], [L "persona"]]),
    (.iWant, [[L "i", .anyOpt, L "want"], [L "want"], [L "goal"],
              [L "objective"]]),
    (.soThat, [[L "so", .anyOpt, L "that"], [L "benefit"], [L "value"],
               [L "outcome"]]),
    (.acceptanceCriteria, [[L "acceptance", .anyOpt, L "criteria"], [L "ac"],
                           [L "criteria"]]),
    (.requirements, [[L "requirement", .optChar 's'], [L "req"],
                     [L "specification"]]),
    (.given, [[L "given"], [L "precondition"], [L "setup"]]),
    (.whenF, [[L "when"], [L "action"], [L "step"]]),
    (.thenF, [[L "then"], [L "expected"], [L "result"], [L "outcome"]]),
    (.notes, [[L "note", .optChar 's'], [L "comment", .optChar 's'],
              [L "remark", .optChar 's']]),
    (.acId, [[L "ac", .anyOpt, L "id"], [L "criteria", .anyOpt, L "id"]]) ]

/-- The first field (in the fixed `columnPatterns` enumeration order)
whose pattern matches the given cleaned header text — the field the
source's inner `for … break` loop assigns. -/
def firstField (cs : List Char) : Option FieldKey :=
  (columnPatterns.find? (fun p => patMatches p.2 cs)).map Prod.fst

/-- `ColumnMapping` from the source, field per field (`null` becomes
`none`); `when`/`then` are rendered `whenF`/`thenF`. -/
structure ColumnMapping where
  id : Option Nat
  description : Option Nat
  asA : Option Nat
  iWant : Option Nat
  soThat : Option Nat
  acceptanceCriteria : Option Nat
  requirements : Option Nat
  given : Option Nat
  whenF : Option Nat
  thenF : Option Nat
  notes : Option Nat
  acId : Option Nat
deriving DecidableEq

/-- The all-`null` mapping that `detectColumnMapping` starts from. -/
def emptyMapping : ColumnMapping :=
  { id := none, description := none, asA := none, iWant := none,
    soThat := none, acceptanceCriteria := none, requirements := none,
    given := none, whenF := none, thenF := none, notes := none,
    acId := none }

/-- Dynamic property read `mapping[field]`. -/
def getField (m : ColumnMapping) : FieldKey → Option Nat
  | .id => m.id
  | .description => m.description
  | .asA => m.asA
  | .iWant => m.iWant
  | .soThat => m.soThat
  | .acceptanceCriteria => m.acceptanceCriteria
  | .requirements => m.requirements
  | .given => m.given
  | .whenF => m.whenF
  | .thenF => m.thenF
  | .notes => m.notes
  | .acId => m.acId

/-- Dynamic property write `mapping[field] = index`. -/
def setField (m : ColumnMapping) (f : FieldKey) (i : Nat) : ColumnMapping :=
  match f with
  | .id => { m with id := some i }
  | .description => { m with description := some i }
  | .asA => { m with asA := some i }
  | .iWant => { m with iWant := some i }
  | .soThat => { m with soThat := some i }
  | .acceptanceCriteria => { m with acceptanceCriteria := some i }
  | .requirements => { m with requirements := some i }
  | .given => { m with given := some i }
  | .whenF => { m with whenF := some i }
  | .thenF => { m with thenF := some i }
  | .notes => { m with notes := some i }
  | .acId => { m with acId := some i }

/-- The field a header cell claims: falsy / non-string headers are
skipped, otherwise the header is trimmed and lowercased
(`header.trim().toLowerCase()`) and the first matching field in the
fixed enumeration order is taken.  Non-string cells do not occur in
the `string[]` view of the grid and are modelled by `""`. -/
def colField (h : String) : Option FieldKey :=
  if h = "" then none
  else firstField (lowerChars (trimChars h.data))

/-- One iteration of the `headerRow.forEach` body: the first matching
field (if any) is assigned the current column index — overwriting any
assignment an earlier column made to that field. -/
def assignHeader (m : ColumnMapping) (h : String) (idx : Nat) : ColumnMapping :=
  match colField h with
  | some f => setField m f idx
  | none => m

/-- The `headerRow.forEach((header, index) => …)` scan, with `idx` the
index of the first header in `hs`. -/
def detectColumnMappingAux (m : ColumnMapping) : List String → Nat → ColumnMapping
  | [], _ => m
  | h :: rest, idx => detectColumnMappingAux (assignHeader m h idx) rest (idx + 1)

/-- `ExcelParser.detectColumnMapping`: scan the header row, then
require the four mandatory fields (`description`, `given`, `when`,
`then`) to be mapped; otherwise return `null` (here `none`). -/
def detectColumnMapping (headerRow : List String) : Option ColumnMapping :=
  let m := detectColumnMappingAux emptyMapping headerRow 0
  if m.description ≠ none ∧ m.given ≠ none ∧ m.whenF ≠ none ∧ m.thenF ≠ none
  then some m else none

/-- Specification-side description of the scan's per-field outcome:
the position (within `hs`) of the *last* column whose normalized
header's first-matching field is `f`, or `none` when no column claims
`f`. -/
def lastClaim (f : FieldKey) : List String → Option Nat
  | [] => none
  | h :: rest =>
      match lastClaim f rest with
      | some j => some (j + 1)
      | none => if colField h = some f then some 0 else none

/-- Modelled from the spec's words, for comparison with the source's
`detectColumnMapping`: `"assign the first matching FieldKey to that
column index, provided that FieldKey has not already been claimed by
an earlier column (first-match-wins per field; later columns matching
an already-claimed field are ignored)"`. -/
def assignHeaderFirstWins (m : ColumnMapping) (h : String) (idx : Nat) :
    ColumnMapping :=
  match colField h with
  | some f => if getField m f = none then setField m f idx else m
  | none => m

/-- The first-match-wins header scan described by the spec. -/
def detectColumnMappingFirstWinsAux (m : ColumnMapping) :
    List String → Nat → ColumnMapping
  | [], _ => m
  | h :: rest, idx =>
      detectColumnMappingFirstWinsAux (assignHeaderFirstWins m h idx) rest (idx + 1)

/-- The spec's first-match-wins mapper (same required-field check as
the source). -/
def detectColumnMappingFirstWins (headerRow : List String) : Option ColumnMapping :=
  let m := detectColumnMappingFirstWinsAux emptyMapping headerRow 0
  if m.description ≠ none ∧ m.given ≠ none ∧ m.whenF ≠ none ∧ m.thenF ≠ none
  then some m else none

/-!
## Row normalizer and batch parser

From `src/apps/backend/src/services/excel-parser.ts`
(`ExcelParser.parseRow`, `ExcelParser.parseDataRows`,
`ExcelParser.parseExcelFile`).
-/

/-- `GherkinUserStory` from the source; `when`/`then` are reserved
words in Lean and are rendered `whenF`/`thenF`.  The optional fields
`tags` and `priority` are `Option`-valued as in the TypeScript
interface. -/
structure GherkinUserStory where
  id : String
  description : String
  asA : String
  iWant : String
  soThat : String
  acceptanceCriteria : String
  requirements : String
  given : String
  whenF : String
  thenF : String
  notes : String
  acId : String
  tags : Option (List String)
  priority : Option String
deriving DecidableEq

/-- Outcome of `ExcelParser.parseRow` on one data row: `null` (a
skipped blank row), a thrown `Error(msg)`, or a constructed story. -/
inductive RowResult where
  | skip
  | err (msg : String)
  | story (s : GherkinUserStory)
deriving DecidableEq

/-- The local `getCellValue` helper of `parseRow`: an absent (`null`)
or out-of-range column yields `''`; otherwise the cell is stringified
and trimmed (a falsy cell — the empty string in the `string[][]` grid
view — also yields `''`). -/
def getCellValue (row : List String) : Option Nat → String
  | none => ""
  | some i =>
      if row.length ≤ i then ""
      else
        let v := row.getD i ""
        if v = "" then "" else jsTrim v

/-- JavaScript `value || fallback` on strings. -/
def jsOr (v fallback : String) : String := if v = "" then fallback else v

/-- `String(rowNumber).padStart(3, '0')`. -/
def padStart3 (n : Nat) : String :=
  let s := toString n
  if 3 ≤ s.length then s
  else String.mk (List.replicate (3 - s.length) '0') ++ s

/-- `ExcelParser.parseRow`.  The guard order and the error messages
follow the source: an all-blank required quadruple is skipped, then
the first missing field of `description`, `given`, `when`, `then`
raises its `… is required` error, otherwise the story is built with
the source's defaulting policy. -/
def parseRow (row : List String) (mapping : ColumnMapping) (rowNumber : Nat) :
    RowResult :=
  let description := getCellValue row mapping.description
  let given := getCellValue row mapping.given
  let whenV := getCellValue row mapping.whenF
  let thenV := getCellValue row mapping.thenF
  if description = "" ∧ given = "" ∧ whenV = "" ∧ thenV = "" then
    .skip
  else if description = "" then .err "Description is required"
  else if given = "" then .err "Given condition is required"
  else if whenV = "" then .err "When action is required"
  else if thenV = "" then .err "Then result is required"
  else
    .story
      { id := jsOr (getCellValue row mapping.id) ("US-" ++ padStart3 rowNumber)
        description := description
        asA := jsOr (getCellValue row mapping.asA) "User"
        iWant := jsOr (getCellValue row mapping.iWant) description
        soThat := jsOr (getCellValue row mapping.soThat) "I can achieve my goal"
        acceptanceCriteria := getCellValue row mapping.acceptanceCriteria
        requirements := getCellValue row mapping.requirements
        given := given
        whenF := whenV
        thenF := thenV
        notes := getCellValue row mapping.notes
        acId := getCellValue row mapping.acId
        tags := some []
        priority := some "medium" }

/-- Specification-side helper: the display name of the first missing
required field in the fixed order description → given → when → then,
matching the names used by the source's error messages. -/
def firstMissingName (d g w _t : String) : String :=
  if d = "" then "Description"
  else if g = "" then "Given condition"
  else if w = "" then "When action"
  else "Then result"

/-- The `dataRows.forEach` loop of `ExcelParser.parseDataRows`, with
`idx` the zero-based index of the first row of the list within the
data rows.  Each row is passed `rowIndex + 2` as its row number; a
thrown row error is caught and recorded as `Row <rowIndex + 2>: <msg>`. -/
def parseDataRowsAux (mapping : ColumnMapping) :
    List (List String) → Nat → List GherkinUserStory × List String
  | [], _ => ([], [])
  | row :: rest, idx =>
      let tail := parseDataRowsAux mapping rest (idx + 1)
      match parseRow row mapping (idx + 2) with
      | .skip => tail
      | .err msg =>
          (tail.1, ("Row " ++ toString (idx + 2) ++ ": " ++ msg) :: tail.2)
      | .story s => (s :: tail.1, tail.2)

/-- `ExcelParser.parseDataRows`. -/
def parseDataRows (dataRows : List (List String)) (mapping : ColumnMapping) :
    List GherkinUserStory × List String :=
  parseDataRowsAux mapping dataRows 0

/-- `ParseResult` from the source. -/
structure ParseResult where
  success : Bool
  data : List GherkinUserStory
  errors : List String
  totalRows : Nat
  validRows : Nat
deriving DecidableEq

/-- `ExcelParser.parseExcelFile`, from the point where the worksheet
has been decoded into the two-dimensional grid `jsonData` (the XLSX
container decode that precedes this is external I/O).  The too-few-rows
check, the mapping rejection and the final report assembly follow the
source. -/
def parseExcelGrid (jsonData : List (List String)) : ParseResult :=
  if jsonData.length < 2 then
    { success := false
      data := []
      errors := ["File must contain at least a header row and one data row"]
      totalRows := jsonData.length
      validRows := 0 }
  else
    let headerRow := jsonData.headD []
    let dataRows := jsonData.tail
    match detectColumnMapping headerRow with
    | none =>
        { success := false
          data := []
          errors := ["Unable to detect required columns. Please ensure your Excel file has proper headers."]
          totalRows := jsonData.length
          validRows := 0 }
    | some mapping =>
        let pr := parseDataRows dataRows mapping
        { success := pr.2.isEmpty
          data := pr.1
          errors := pr.2
          totalRows := dataRows.length
          validRows := pr.1.length }

/-!
## Standalone record validator

From `src/apps/backend/src/services/excel-parser.ts`
(`ExcelParser.validateUserStory`).
-/

/-- `Partial<GherkinUserStory>`: every field optional. -/
structure PartialStory where
  id : Option String := none
  description : Option String := none
  asA : Option String := none
  iWant : Option String := none
  soThat : Option String := none
  acceptanceCriteria : Option String := none
  requirements : Option String := none
  given : Option String := none
  whenF : Option String := none
  thenF : Option String := none
  notes : Option String := none
  acId : Option String := none
  tags : Option (List String) := none
  priority : Option String := none
deriving DecidableEq

/-- `!story.field?.trim()`: the field is missing, empty, or
whitespace-only. -/
def trimmedEmpty : Option String → Bool
  | none => true
  | some s => jsTrim s = ""

/-- `story.field && !story.field.toLowerCase().startsWith(p)`: the
raw value is truthy (a non-empty string) but its lowercase form does
not start with `p`. -/
def failsConvention (o : Option String) (p : String) : Bool :=
  match o with
  | none => false
  | some s => s ≠ "" && ! p.data.isPrefixOf (lowerChars s.data)

/-- The `{ valid, errors }` object returned by the validator. -/
structure ValidationResult where
  valid : Bool
  errors : List String
deriving DecidableEq

/-- `ExcelParser.validateUserStory`: the sequence of conditional
`errors.push` calls, then `valid = errors.length === 0`. -/
def validateUserStory (story : PartialStory) : ValidationResult :=
  let errors :=
    (if trimmedEmpty story.description then ["Description is required"] else []) ++
    (if trimmedEmpty story.given then ["Given condition is required"] else []) ++
    (if trimmedEmpty story.whenF then ["When action is required"] else []) ++
    (if trimmedEmpty story.thenF then ["Then result is required"] else []) ++
    (if failsConvention story.given "given" then
      ["Given condition should start with \"Given\""] else []) ++
    (if failsConvention story.whenF "when" then
      ["When action should start with \"When\""] else []) ++
    (if failsConvention story.thenF "then" then
      ["Then result should start with \"Then\""] else [])
  { valid := errors.length == 0, errors := errors }

end Backend

/-!
## Shared test-artifact data model

`TestStep`, `TestCase` and `TestGenerationContext` as declared in
`src/apps copy/backend/src/index.ts` (the variant in
`src/unnamed/part_005` narrows `userType` to a string union and adds
optional knowledge-base fields; both are modelled here with plain
strings). -/

/-- `TestStep`. -/
structure TestStep where
  stepNumber : Nat
  action : String
  expectedResult : String
  testData : Option String
deriving DecidableEq

/-- `TestCase`. -/
structure TestCase where
  id : String
  title : String
  description : String
  module : String
  userType : String
  priority : String
  tags : List String
  steps : List TestStep
  expectedResult : String
  testData : Option String
  preconditions : Option (List String)
  postconditions : Option (List String)
  sourceStoryId : Option String
deriving DecidableEq

/-- `TestGenerationContext`.  The string-union fields (`userType`,
`testingScope`) are modelled as strings. -/
structure TestGenerationContext where
  userStories : List Backend.GherkinUserStory
  selectedModules : List String
  userType : String
  testingScope : String
  includeNegativeTests : Bool
  includePerformanceTests : Bool
  includeSecurityTests : Bool
deriving DecidableEq

/-- JavaScript `opt || fallback` on an optional string field. -/
def jsOrOpt : Option String → String → String
  | none, d => d
  | some s, d => if s = "" then d else s

/-- `s.replace(/^p\s*/i, '')` for a lowercase literal `p`: when the
lowercased string starts with `p`, remove that prefix together with
the whitespace that follows it; otherwise leave the string unchanged. -/
def replaceLeadingCI (p : String) (s : String) : String :=
  if p.data.isPrefixOf (lowerChars s.data) then
    String.mk ((s.data.drop p.data.length).dropWhile isJsWs)
  else s

namespace AppsCopy

/-!
## Deterministic (mock) provider and provider registry

From `src/apps copy/backend/src/index.ts` (`MockAIProvider`,
`AIService`) — the provider layer the spec's §4.6 describes.  The
`async` methods are synchronous pure computations apart from
`Date.now()` / `new Date()`, which are modelled by an explicit clock
parameter `now` held constant during a call (the spec defines no
timing semantics at this layer).
-/

/-- The rich `TestGenerationResult` of `src/apps copy`: success flag,
artifacts, summary aggregates, errors and metadata.  The JavaScript
`Record<string, number>` summaries are insertion-ordered association
lists. -/
structure TestGenerationResult where
  success : Bool
  testCases : List TestCase
  totalGenerated : Nat
  byModule : List (String × Nat)
  byPriority : List (String × Nat)
  generationTime : Nat
  errors : List String
  provider : String
  model : String
  timestamp : String
  context : TestGenerationContext
deriving DecidableEq

/-- `acc[key] = (acc[key] || 0) + 1` on an insertion-ordered record. -/
def bumpCount : List (String × Nat) → String → List (String × Nat)
  | [], key => [(key, 1)]
  | (k, v) :: rest, key =>
      if k = key then (k, v + 1) :: rest else (k, v) :: bumpCount rest key

/-- `MockAIProvider.countByModule`. -/
def countByModule (testCases : List TestCase) : List (String × Nat) :=
  testCases.foldl (fun acc t => bumpCount acc t.module) []

/-- `MockAIProvider.countByPriority`. -/
def countByPriority (testCases : List TestCase) : List (String × Nat) :=
  testCases.foldl (fun acc t => bumpCount acc t.priority) []

/-- `MockAIProvider.createPositiveTestCase`. -/
def createPositiveTestCase (story : Backend.GherkinUserStory)
    (module : String) (context : TestGenerationContext) (now : Nat) : TestCase :=
  { id := "TC_" ++ story.id ++ "_" ++ module ++ "_POS_" ++ toString now
    title := "Positive Test: " ++ story.description ++ " - " ++ module
    description := "Verify that " ++ jsToLower story.description ++
      " works correctly for " ++ module ++ " module"
    module := module
    userType := context.userType
    priority := jsOrOpt story.priority "medium"
    tags := ["positive", "functional", module] ++ story.tags.getD []
    steps :=
      [ { stepNumber := 1, action := "Navigate to " ++ module ++ " section",
          expectedResult := module ++ " page loads successfully", testData := none },
        { stepNumber := 2, action := replaceLeadingCI "given" story.given,
          expectedResult := "Preconditions are met", testData := none },
        { stepNumber := 3, action := replaceLeadingCI "when" story.whenF,
          expectedResult := "Action is performed successfully", testData := none },
        { stepNumber := 4, action := "Verify the result",
          expectedResult := replaceLeadingCI "then" story.thenF, testData := none } ]
    expectedResult := replaceLeadingCI "then" story.thenF
    testData := none
    preconditions := some
      [ "User is logged in with appropriate permissions",
        "Access to " ++ module ++ " module is available",
        "System is in stable state" ]
    postconditions := none
    sourceStoryId := some story.id }

/-- `MockAIProvider.createNegativeTestCase`. -/
def createNegativeTestCase (story : Backend.GherkinUserStory)
    (module : String) (context : TestGenerationContext) (now : Nat) : TestCase :=
  { id := "TC_" ++ story.id ++ "_" ++ module ++ "_NEG_" ++ toString now
    title := "Negative Test: " ++ story.description ++ " - " ++ module
    description := "Verify error handling when " ++ jsToLower story.description ++
      " fails in " ++ module ++ " module"
    module := module
    userType := context.userType
    priority := jsOrOpt story.priority "medium"
    tags := ["negative", "error-handling", module] ++ story.tags.getD []
    steps :=
      [ { stepNumber := 1, action := "Navigate to " ++ module ++ " section",
          expectedResult := module ++ " page loads successfully", testData := none },
        { stepNumber := 2, action := "Set up invalid preconditions",
          expectedResult := "Invalid state is established", testData := none },
        { stepNumber := 3, action := replaceLeadingCI "when" story.whenF,
          expectedResult := "System shows appropriate error message", testData := none },
        { stepNumber := 4, action := "Verify error handling",
          expectedResult := "Appropriate error message is displayed and system remains stable",
          testData := none } ]
    expectedResult := "System handles error gracefully and shows meaningful error message"
    testData := none
    preconditions := some
      [ "User is logged in with appropriate permissions",
        "Invalid or insufficient data is prepared" ]
    postconditions := none
    sourceStoryId := some story.id }

/-- `MockAIProvider.createEdgeCaseTest` — note the forced `'low'`
priority. -/
def createEdgeCaseTest (story : Backend.GherkinUserStory)
    (module : String) (context : TestGenerationContext) (now : Nat) : TestCase :=
  { id := "TC_" ++ story.id ++ "_" ++ module ++ "_EDGE_" ++ toString now
    title := "Edge Case: " ++ story.description ++ " - " ++ module
    description := "Test boundary conditions for " ++ jsToLower story.description ++
      " in " ++ module ++ " module"
    module := module
    userType := context.userType
    priority := "low"
    tags := ["edge-case", "boundary", module] ++ story.tags.getD []
    steps :=
      [ { stepNumber := 1, action := "Navigate to " ++ module ++ " section",
          expectedResult := module ++ " page loads successfully", testData := none },
        { stepNumber := 2, action := "Set up boundary conditions (max/min values)",
          expectedResult := "Boundary data is prepared", testData := none },
        { stepNumber := 3,
          action := replaceLeadingCI "when" story.whenF ++ " with boundary values",
          expectedResult := "Action completes with boundary data", testData := none },
        { stepNumber := 4, action := "Verify boundary behavior",
          expectedResult := "System handles boundary conditions correctly",
          testData := none } ]
    expectedResult := "System processes boundary conditions appropriately"
    testData := none
    preconditions := some
      [ "User is logged in with appropriate permissions",
        "Boundary test data is available" ]
    postconditions := none
    sourceStoryId := some story.id }

/-- The artifact list built by the nested `for (const story …)
for (const module …)` loops of `MockAIProvider.generateTestCases`:
positive always, negative when the flag is set, edge always. -/
def mockTestCases (context : TestGenerationContext) (now : Nat) : List TestCase :=
  context.userStories.flatMap fun story =>
    context.selectedModules.flatMap fun module =>
      [createPositiveTestCase story module context now] ++
      (if context.includeNegativeTests then
        [createNegativeTestCase story module context now] else []) ++
      [createEdgeCaseTest story module context now]

/-- `MockAIProvider.generateTestCases`.  The body's try-block contains
no failing operation, so the success branch is always taken;
`generationTime` is the difference of the frozen clock with itself. -/
def mockGenerateTestCases (context : TestGenerationContext) (now : Nat) :
    TestGenerationResult :=
  let testCases := mockTestCases context now
  { success := true
    testCases := testCases
    totalGenerated := testCases.length
    byModule := countByModule testCases
    byPriority := countByPriority testCases
    generationTime := now - now
    errors := []
    provider := "Mock AI Provider"
    model := "mock-v1.0"
    timestamp := toString now
    context := context }

/-- The `BaseAIProvider` contract: a configuration probe and a
generation function (both `async` in the source, modelled pure). -/
structure BaseAIProvider where
  name : String
  model : String
  validateConfiguration : Unit → Bool
  generateTestCases : TestGenerationContext → TestGenerationResult

/-- The `MockAIProvider` instance (always validates, generates with
the given clock). -/
def MockAIProvider (now : Nat) : BaseAIProvider :=
  { name := "Mock AI Provider"
    model := "mock-v1.0"
    validateConfiguration := fun _ => true
    generateTestCases := fun context => mockGenerateTestCases context now }

/-- The two caller-error exceptions `AIService.generateTestCases` can
throw, tagged by kind; the carried string is the provider name the
thrown `Error` message interpolates. -/
inductive AIServiceError where
  | notFound (providerName : String)
  | misconfigured (providerName : String)
deriving DecidableEq

/-- The `AIService` registry state: the name-keyed provider `Map`
(insertion-ordered association list) and the default provider name. -/
structure AIService where
  providers : List (String × BaseAIProvider)
  defaultProvider : String

/-- `AIService.generateTestCases(context, providerName?)`:
`providerName || this.defaultProvider` (so an absent *or empty* name
falls back to the default), then the not-found check, then the
configuration check, then delegation.  Thrown errors are the `Except`
error channel. -/
def AIService.generateTestCases (svc : AIService)
    (context : TestGenerationContext) (providerName : Option String) :
    Except AIServiceError TestGenerationResult :=
  let selectedProvider :=
    match providerName with
    | none => svc.defaultProvider
    | some s => if s = "" then svc.defaultProvider else s
  match svc.providers.lookup selectedProvider with
  | none => .error (.notFound selectedProvider)
  | some provider =>
      if provider.validateConfiguration () then
        .ok (provider.generateTestCases context)
      else
        .error (.misconfigured selectedProvider)

end AppsCopy

namespace Backend

/-!
## Remote-backend adapters

From the `GeminiProvider` appended to
`src/apps/backend/src/services/excel-parser.ts` and the
`OpenAIProvider` / `TestGenerationResult` interface of
`src/unnamed/part_005`.  The external generation call and
`JSON.parse` are I/O-boundary operations, modelled as explicit
outcome parameters (`Except`-valued): the embedding then shows how the
adapter body routes every failure through its catch block into an
ordinary result value. -/

/-- `metadata` of the adapters' `TestGenerationResult`. -/
structure GenMetadata where
  totalGenerated : Nat
  successful : Nat
  failed : Nat
  warnings : List String
deriving DecidableEq

/-- The adapters' `TestGenerationResult` (`src/unnamed/part_005`):
`testCases`, `generationTime`, optional `tokensUsed` and `model`,
`provider`, `metadata` — and no other field. -/
structure TestGenerationResult where
  testCases : List TestCase
  generationTime : Nat
  tokensUsed : Option Nat
  model : Option String
  provider : String
  metadata : GenMetadata
deriving DecidableEq

/-- The property names of the `TestGenerationResult` interface in
`src/unnamed/part_005` (lines 101–113), in declaration order. -/
def testGenerationResultFields : List String :=
  ["testCases", "generationTime", "tokensUsed", "model", "provider", "metadata"]

/-- The shape `JSON.parse` is read through: the optional `testCases`
array of the parsed response object. -/
structure ParsedResponse where
  testCases : Option (List TestCase)

/-- Outcome of the external OpenAI chat-completion call: the call
threw, or it returned and `response.choices[0]?.message?.content` is
the given optional string. -/
inductive OpenAICall where
  | threw (msg : String)
  | returned (content : Option String) (tokensUsed : Option Nat)

/-- `OpenAIProvider.generateTestCases`.  `parseJson` is the
`JSON.parse` oracle (`Except.error` models a thrown `SyntaxError`);
`elapsed` is `Date.now() - startTime` at the point a result is built.
Every throw inside the try-block lands in the catch block, which
returns the zero-artifact result with a `Generation failed: …`
warning; the function itself never fails. -/
def openaiGenerateTestCases (model : String) (call : OpenAICall)
    (parseJson : String → Except String ParsedResponse) (elapsed : Nat) :
    TestGenerationResult :=
  let failure := fun (msg : String) =>
    { testCases := []
      generationTime := elapsed
      tokensUsed := none
      model := none
      provider := "OpenAI"
      metadata :=
        { totalGenerated := 0, successful := 0, failed := 1,
          warnings := ["Generation failed: " ++ msg] } : TestGenerationResult }
  match call with
  | .threw msg => failure msg
  | .returned none _ => failure "No content received from OpenAI"
  | .returned (some content) tokensUsed =>
      match parseJson content with
      | .error msg => failure msg
      | .ok parsed =>
          let testCases := parsed.testCases.getD []
          { testCases := testCases
            generationTime := elapsed
            tokensUsed := tokensUsed
            model := some model
            provider := "OpenAI"
            metadata :=
              { totalGenerated := testCases.length
                successful := testCases.length
                failed := 0
                warnings := [] } }

/-- One pass of the Gemini markdown-fence cleanup
`content.replace(/```json\n?|\n?```/g, '')`: scan left to right and
delete every occurrence of an alternative, trying the alternation's
branches (with the greedy `?`) at each position. -/
def stripFences : List Char → List Char
  | [] => []
  | c :: cs =>
      if ("```json\n").data.isPrefixOf (c :: cs) then
        stripFences ((c :: cs).drop 8)
      else if ("```json").data.isPrefixOf (c :: cs) then
        stripFences ((c :: cs).drop 7)
      else if ("\n```").data.isPrefixOf (c :: cs) then
        stripFences ((c :: cs).drop 4)
      else if ("```").data.isPrefixOf (c :: cs) then
        stripFences ((c :: cs).drop 3)
      else c :: stripFences cs
termination_by cs => cs.length
decreasing_by
  all_goals simp [List.length_drop]
  all_goals omega

/-- `GeminiProvider.generateTestCases`: on a successful call the
response text is fence-stripped and trimmed, then parsed; a thrown
call or parse error reaches the catch block, which returns the
zero-artifact result with a `Generation failed: …` warning. -/
def geminiGenerateTestCases (model : String) (call : Except String String)
    (parseJson : String → Except String ParsedResponse) (elapsed : Nat) :
    TestGenerationResult :=
  let failure := fun (msg : String) =>
    { testCases := []
      generationTime := elapsed
      tokensUsed := none
      model := none
      provider := "Google Gemini"
      metadata :=
        { totalGenerated := 0, successful := 0, failed := 1,
          warnings := ["Generation failed: " ++ msg] } : TestGenerationResult }
  match call with
  | .error msg => failure msg
  | .ok content =>
      let cleanedContent := jsTrim (String.mk (stripFences content.data))
      match parseJson cleanedContent with
      | .error msg => failure msg
      | .ok parsed =>
          let testCases := parsed.testCases.getD []
          { testCases := testCases
            generationTime := elapsed
            tokensUsed := none
            model := some model
            provider := "Google Gemini"
            metadata :=
              { totalGenerated := testCases.length
                successful := testCases.length
                failed := 0
                warnings := [] } }

end Backend

/-!
## Concrete fixtures used by witnesses and counterexamples
-/

namespace Backend

/-- A mapping with the four required columns at indices 0–3 (the
mapping `detectColumnMapping` produces for the header
`["Description", "Given", "When", "Then"]`). -/
def sampleMapping : ColumnMapping :=
  { emptyMapping with
    description := some 0, given := some 1, whenF := some 2, thenF := some 3 }

/-- `sampleMapping` extended with a `notes` column at index 4. -/
def sampleMappingNotes : ColumnMapping :=
  { sampleMapping with notes := some 4 }

/-- The story `parseRow` builds from
`["Login works", "Given A", "When B", "Then C"]` under `sampleMapping`
at row number 2. -/
def sampleStory : GherkinUserStory :=
  { id := "US-002", description := "Login works", asA := "User"
    iWant := "Login works", soThat := "I can achieve my goal"
    acceptanceCriteria := "", requirements := "", given := "Given A"
    whenF := "When B", thenF := "Then C", notes := "", acId := ""
    tags := some [], priority := some "medium" }

/-- A `JSON.parse` oracle that always throws (every input is
malformed). -/
def parse0 : String → Except String ParsedResponse :=
  fun _ => .error "Unexpected token"

end Backend

namespace AppsCopy

/-- An empty generation context. -/
def ctx0 : TestGenerationContext :=
  { userStories := [], selectedModules := [], userType := "airline_user"
    testingScope := "smoke", includeNegativeTests := false
    includePerformanceTests := false, includeSecurityTests := false }

/-- A registry holding only the mock provider under the name
`"mock"`, which is also the default (the state the `AIService`
constructor builds, with the clock frozen at 0). -/
def svc0 : AIService :=
  { providers := [("mock", MockAIProvider 0)], defaultProvider := "mock" }

/-- A provider whose configuration probe fails. -/
def badProvider : BaseAIProvider :=
  { name := "Bad Provider", model := "unconfigured"
    validateConfiguration := fun _ => false
    generateTestCases := fun context => mockGenerateTestCases context 0 }

/-- A registry holding only the misconfigured provider. -/
def svc1 : AIService :=
  { providers := [("bad", badProvider)], defaultProvider := "bad" }

end AppsCopy

/-- The observable failure shape shared by both remote adapters' catch
blocks: no artifacts, a failure count of one, and the single
descriptive warning. -/
def failureShape (r : Backend.TestGenerationResult) (msg : String) : Prop :=
  r.testCases = [] ∧ r.metadata.failed = 1 ∧ r.metadata.successful = 0 ∧
    r.metadata.totalGenerated = 0 ∧
    r.metadata.warnings = ["Generation failed: " ++ msg]

/-!
## Supporting lemmas
-/

namespace Backend

theorem getField_setField (m : ColumnMapping) (f g : FieldKey) (i : Nat) :
    getField (setField m g i) f = if f = g then some i else getField m f := by
  cases g <;> cases f <;> simp [getField, setField]

theorem getField_emptyMapping (f : FieldKey) :
    getField emptyMapping f = none := by
  cases f <;> rfl

theorem getField_assignHeader (m : ColumnMapping) (h : String) (idx : Nat)
    (f : FieldKey) :
    getField (assignHeader m h idx) f =
      if colField h = some f then some idx else getField m f := by
  unfold assignHeader
  cases hc : colField h with
  | none => simp
  | some g =>
      rw [getField_setField]
      by_cases hfg : f = g
      · subst hfg; simp
      · rw [if_neg hfg, if_neg (fun hgf => hfg (Option.some.inj hgf).symm)]

theorem lastClaim_cons (f : FieldKey) (h : String) (rest : List String) :
    lastClaim f (h :: rest) =
      match lastClaim f rest with
      | some j => some (j + 1)
      | none => if colField h = some f then some 0 else none := rfl

/-- Invariant of the header scan: a field ends up at the offset of the
last column that claims it, and keeps its incoming value when no
column in the remaining list claims it. -/
theorem getField_detectColumnMappingAux (hs : List String) :
    ∀ (m : ColumnMapping) (idx : Nat) (f : FieldKey),
      getField (detectColumnMappingAux m hs idx) f =
        match lastClaim f hs with
        | some j => some (idx + j)
        | none => getField m f := by
  induction hs with
  | nil => intro m idx f; rfl
  | cons h rest ih =>
      intro m idx f
      show getField (detectColumnMappingAux (assignHeader m h idx) rest (idx + 1)) f = _
      rw [ih, lastClaim_cons]
      cases hrest : lastClaim f rest with
      | some j =>
          show some (idx + 1 + j) = some (idx + (j + 1))
          simp only [Option.some.injEq]
          omega
      | none =>
          show getField (assignHeader m h idx) f = _
          rw [getField_assignHeader]
          by_cases hc : colField h = some f
          · simp only [if_pos hc]
            show some idx = some (idx + 0)
            rw [Nat.add_zero]
          · simp only [if_neg hc]

/-- A field is claimed by some column iff `lastClaim` finds it. -/
theorem lastClaim_isSome_iff (f : FieldKey) (hs : List String) :
    (lastClaim f hs).isSome = true ↔ ∃ h ∈ hs, colField h = some f := by
  induction hs with
  | nil => simp [lastClaim]
  | cons h rest ih =>
      rw [lastClaim_cons]
      cases hrest : lastClaim f rest with
      | some j =>
          obtain ⟨x, hx, hcf⟩ := ih.mp (by rw [hrest]; rfl)
          exact ⟨fun _ => ⟨x, List.mem_cons_of_mem _ hx, hcf⟩, fun _ => rfl⟩
      | none =>
          have hnex : ¬ ∃ x ∈ rest, colField x = some f := by
            rw [← ih, hrest]; simp
          by_cases hc : colField h = some f
          · simp only [if_pos hc]
            exact ⟨fun _ => ⟨h, List.mem_cons_self h rest, hc⟩, fun _ => rfl⟩
          · simp only [if_neg hc]
            constructor
            · intro habs; exact absurd habs (by simp)
            · rintro ⟨x, hx, hcf⟩
              rcases List.mem_cons.mp hx with rfl | hx2
              · exact absurd hcf hc
              · exact absurd ⟨x, hx2, hcf⟩ hnex

theorem parseDataRowsAux_cons (mapping : ColumnMapping) (row : List String)
    (rest : List (List String)) (idx : Nat) :
    parseDataRowsAux mapping (row :: rest) idx =
      match parseRow row mapping (idx + 2) with
      | .skip => parseDataRowsAux mapping rest (idx + 1)
      | .err msg =>
          ((parseDataRowsAux mapping rest (idx + 1)).1,
            ("Row " ++ toString (idx + 2) ++ ": " ++ msg) ::
              (parseDataRowsAux mapping rest (idx + 1)).2)
      | .story s =>
          (s :: (parseDataRowsAux mapping rest (idx + 1)).1,
            (parseDataRowsAux mapping rest (idx + 1)).2) := rfl

end Backend

/-- A `flatMap` whose blocks all have the same length multiplies the
length. -/
theorem length_flatMap_const {α β : Type} (l : List α) (f : α → List β) (c : Nat)
    (h : ∀ a, (f a).length = c) : (l.flatMap f).length = l.length * c := by
  induction l with
  | nil => simp
  | cons a t ih =>
      simp only [List.flatMap_cons, List.length_append, List.length_cons, ih, h a,
        Nat.succ_mul]
      omega

/-!
## Claims
-/

/-- C1 (amended): the Header-to-Field Mapper scans columns left to
right and assigns each column's first-matching field in the fixed
enumeration order, but a later column whose header matches an
already-claimed field *overwrites* the earlier assignment: whenever
the mapper accepts a header row, every field is mapped to the *last*
column whose normalized header has that field as its first match
(last-match-wins per field, not the claimed first-match-wins). -/
theorem claim1_mapper_last_match_wins
    (headerRow : List String) (m : Backend.ColumnMapping) (f : Backend.FieldKey)
    (hm : Backend.detectColumnMapping headerRow = some m) :
    Backend.getField m f = Backend.lastClaim f headerRow := by
  simp only [Backend.detectColumnMapping] at hm
  split at hm
  · injection hm with hm2
    subst hm2
    rw [Backend.getField_detectColumnMappingAux]
    cases hl : Backend.lastClaim f headerRow with
    | some j =>
        show some (0 + j) = some j
        rw [Nat.zero_add]
    | none => exact Backend.getField_emptyMapping f
  · exact absurd hm (by simp)

/-- C1 witness: on the header row `["description", "given", "setup",
"when", "then"]` the mapper succeeds and its `given` assignment is the
index computed by `lastClaim` (column 2, the later synonym). -/
theorem claim1_witness :
    Backend.detectColumnMapping ["description", "given", "setup", "when", "then"] =
      some { Backend.emptyMapping with
              description := some 0, given := some 2,
              whenF := some 3, thenF := some 4 } ∧
    Backend.getField
        { Backend.emptyMapping with
          description := some 0, given := some 2,
          whenF := some 3, thenF := some 4 }
        Backend.FieldKey.given =
      Backend.lastClaim Backend.FieldKey.given
        ["description", "given", "setup", "when", "then"] :=
  ⟨by decide,
   claim1_mapper_last_match_wins
     ["description", "given", "setup", "when", "then"] _ Backend.FieldKey.given
     (by decide)⟩

/-- C1 counterexample: the source mapper and the spec's
first-match-wins mapper disagree on `["description", "given", "setup",
"when", "then"]` — the source maps `given` to the later column 2
(`"setup"`), while first-match-wins would keep column 1 (`"given"`). -/
theorem claim1_counterexample :
    Backend.detectColumnMapping ["description", "given", "setup", "when", "then"] ≠
      Backend.detectColumnMappingFirstWins
        ["description", "given", "setup", "when", "then"] ∧
    (Backend.detectColumnMapping
        ["description", "given", "setup", "when", "then"]).map
      (fun m => m.given) = some (some 2) ∧
    (Backend.detectColumnMappingFirstWins
        ["description", "given", "setup", "when", "then"]).map
      (fun m => m.given) = some (some 1) := by
  refine ⟨by decide, by decide, by decide⟩

/-- C2 (amended): whenever each of the four required fields
`description`, `given`, `when`, `then` is the *first-matching* field
(in the fixed enumeration order) of at least one column's normalized
header, the mapper accepts the row and maps all four required fields.
The original claim — any recognized synonym suffices — fails because a
synonym may also be matched by an earlier-enumerated field's pattern
(see the counterexample: `"outcome"` is claimed by `soThat` before
`then` is tried). -/
theorem claim2_mapper_accepts_first_match_synonyms
    (headerRow : List String)
    (hd : ∃ h ∈ headerRow, Backend.colField h = some Backend.FieldKey.description)
    (hg : ∃ h ∈ headerRow, Backend.colField h = some Backend.FieldKey.given)
    (hw : ∃ h ∈ headerRow, Backend.colField h = some Backend.FieldKey.whenF)
    (ht : ∃ h ∈ headerRow, Backend.colField h = some Backend.FieldKey.thenF) :
    ∃ m, Backend.detectColumnMapping headerRow = some m ∧
      m.description ≠ none ∧ m.given ≠ none ∧ m.whenF ≠ none ∧ m.thenF ≠ none := by
  have key : ∀ f : Backend.FieldKey,
      (∃ h ∈ headerRow, Backend.colField h = some f) →
      Backend.getField (Backend.detectColumnMappingAux Backend.emptyMapping headerRow 0) f ≠
        none := by
    intro f hf
    rw [Backend.getField_detectColumnMappingAux]
    have hsome : (Backend.lastClaim f headerRow).isSome = true :=
      (Backend.lastClaim_isSome_iff f headerRow).mpr hf
    obtain ⟨j, hj⟩ := Option.isSome_iff_exists.mp hsome
    rw [hj]
    simp
  refine ⟨Backend.detectColumnMappingAux Backend.emptyMapping headerRow 0, ?_,
    key _ hd, key _ hg, key _ hw, key _ ht⟩
  simp only [Backend.detectColumnMapping]
  rw [if_pos ⟨key _ hd, key _ hg, key _ hw, key _ ht⟩]

/-- C2 witness: the synonym header row `["Title", "Precondition",
"Action", "Result"]` is accepted with all four required fields
mapped. -/
theorem claim2_witness :
    (Backend.detectColumnMapping ["Title", "Precondition", "Action", "Result"]).isSome
      = true := by
  obtain ⟨m, hm, -, -, -, -⟩ :=
    claim2_mapper_accepts_first_match_synonyms
      ["Title", "Precondition", "Action", "Result"]
      ⟨"Title", by simp, by decide⟩
      ⟨"Precondition", by simp, by decide⟩
      ⟨"Action", by simp, by decide⟩
      ⟨"Result", by simp, by decide⟩
  rw [hm]
  rfl

/-- C2 counterexample: `"outcome"` is a recognized synonym of the
required `then` concept (it is an alternative of the `then` pattern),
and `["description", "given", "when", "outcome"]` offers recognized
synonyms for all four required concepts — yet the mapper rejects the
row, because `"outcome"` is claimed by the earlier-enumerated `soThat`
pattern. -/
theorem claim2_counterexample :
    (Backend.columnPatterns.lookup Backend.FieldKey.thenF).map
        (fun pat => Backend.patMatches pat (lowerChars (trimChars "outcome".data)))
      = some true ∧
    Backend.colField "description" = some Backend.FieldKey.description ∧
    Backend.colField "given" = some Backend.FieldKey.given ∧
    Backend.colField "when" = some Backend.FieldKey.whenF ∧
    Backend.colField "outcome" = some Backend.FieldKey.soThat ∧
    Backend.detectColumnMapping ["description", "given", "when", "outcome"] = none := by
  refine ⟨by decide, by decide, by decide, by decide, by decide, by decide⟩

/-- C3: a data row whose four required cells are not all empty but at
least one of which is empty (after trimming) yields exactly one row
error and no record: `parseRow` throws `<FieldName> is required`
naming the first missing field in the fixed order description → given
→ when → then, and the batch loop records it as
`Row <idx + 2>: <FieldName> is required` (the 0-based data row index
plus 2) while leaving the record list untouched. -/
theorem claim3_missing_required_field_single_error
    (mapping : Backend.ColumnMapping) (row : List String)
    (rest : List (List String)) (idx : Nat)
    (hne : ¬ (Backend.getCellValue row mapping.description = "" ∧
              Backend.getCellValue row mapping.given = "" ∧
              Backend.getCellValue row mapping.whenF = "" ∧
              Backend.getCellValue row mapping.thenF = ""))
    (hmiss : Backend.getCellValue row mapping.description = "" ∨
             Backend.getCellValue row mapping.given = "" ∨
             Backend.getCellValue row mapping.whenF = "" ∨
             Backend.getCellValue row mapping.thenF = "") :
    Backend.parseRow row mapping (idx + 2) =
      .err (Backend.firstMissingName
        (Backend.getCellValue row mapping.description)
        (Backend.getCellValue row mapping.given)
        (Backend.getCellValue row mapping.whenF)
        (Backend.getCellValue row mapping.thenF) ++ " is required") ∧
    Backend.parseDataRowsAux mapping (row :: rest) idx =
      ((Backend.parseDataRowsAux mapping rest (idx + 1)).1,
        ("Row " ++ toString (idx + 2) ++ ": " ++
          (Backend.firstMissingName
            (Backend.getCellValue row mapping.description)
            (Backend.getCellValue row mapping.given)
            (Backend.getCellValue row mapping.whenF)
            (Backend.getCellValue row mapping.thenF) ++ " is required")) ::
          (Backend.parseDataRowsAux mapping rest (idx + 1)).2) := by
  have hrow : Backend.parseRow row mapping (idx + 2) =
      .err (Backend.firstMissingName
        (Backend.getCellValue row mapping.description)
        (Backend.getCellValue row mapping.given)
        (Backend.getCellValue row mapping.whenF)
        (Backend.getCellValue row mapping.thenF) ++ " is required") := by
    unfold Backend.parseRow Backend.firstMissingName
    rw [if_neg hne]
    by_cases hd : Backend.getCellValue row mapping.description = ""
    · rw [if_pos hd, if_pos hd]; rfl
    · rw [if_neg hd, if_neg hd]
      by_cases hg : Backend.getCellValue row mapping.given = ""
      · rw [if_pos hg, if_pos hg]; rfl
      · rw [if_neg hg, if_neg hg]
        by_cases hw : Backend.getCellValue row mapping.whenF = ""
        · rw [if_pos hw, if_pos hw]; rfl
        · rw [if_neg hw, if_neg hw]
          have ht : Backend.getCellValue row mapping.thenF = "" := by
            rcases hmiss with h | h | h | h
            · exact absurd h hd
            · exact absurd h hg
            · exact absurd h hw
            · exact h
          rw [if_pos ht]; rfl
  refine ⟨hrow, ?_⟩
  rw [Backend.parseDataRowsAux_cons, hrow]

/-- C3 witness: under the four-column mapping, the row
`["Login works", "", "When B", "Then C"]` (data row index 0) produces
exactly the error `Row 2: Given condition is required` and no
record. -/
theorem claim3_witness :
    Backend.parseRow ["Login works", "", "When B", "Then C"]
        Backend.sampleMapping 2 = .err "Given condition is required" ∧
    Backend.parseDataRowsAux Backend.sampleMapping
        [["Login works", "", "When B", "Then C"]] 0 =
      ([], ["Row 2: Given condition is required"]) := by
  have h := claim3_missing_required_field_single_error
    Backend.sampleMapping ["Login works", "", "When B", "Then C"] [] 0
    (by decide) (by decide)
  exact ⟨h.1.trans (by decide), h.2.trans (by decide)⟩

/-- C4: a data row whose four required cells are all empty or
whitespace-only (after trimming) is silently skipped by the batch
parser — `parseRow` returns `null` and the accumulated records and
errors are exactly those of the remaining rows — regardless of what
any optional-field cell contains. -/
theorem claim4_blank_row_skipped
    (mapping : Backend.ColumnMapping) (row : List String)
    (rest : List (List String)) (idx : Nat)
    (hd : Backend.getCellValue row mapping.description = "")
    (hg : Backend.getCellValue row mapping.given = "")
    (hw : Backend.getCellValue row mapping.whenF = "")
    (ht : Backend.getCellValue row mapping.thenF = "") :
    Backend.parseRow row mapping (idx + 2) = .skip ∧
    Backend.parseDataRowsAux mapping (row :: rest) idx =
      Backend.parseDataRowsAux mapping rest (idx + 1) := by
  have hrow : Backend.parseRow row mapping (idx + 2) = .skip := by
    unfold Backend.parseRow
    rw [if_pos ⟨hd, hg, hw, ht⟩]
  refine ⟨hrow, ?_⟩
  rw [Backend.parseDataRowsAux_cons, hrow]

/-- C4 witness: a row with whitespace-only required cells but a
non-empty `notes` cell contributes neither a record nor an error. -/
theorem claim4_witness :
    Backend.parseRow ["", "  ", "", "", "a stray note"]
        Backend.sampleMappingNotes 2 = .skip ∧
    Backend.parseDataRowsAux Backend.sampleMappingNotes
        [["", "  ", "", "", "a stray note"]] 0 = ([], []) := by
  have h := claim4_blank_row_skipped Backend.sampleMappingNotes
    ["", "  ", "", "", "a stray note"] [] 0
    (by decide) (by decide) (by decide) (by decide)
  exact ⟨h.1, h.2.trans (by decide)⟩

/-- C5: for every input grid, the report built by the batch parser
(`parseExcelFile` from the decoded grid onward) satisfies
`validRows = length(records)` and `success = true` exactly when the
error list is empty — in the too-few-rows branch, the
rejected-mapping branch, and the main accumulation branch alike. -/
theorem claim5_report_invariants (grid : List (List String)) :
    (Backend.parseExcelGrid grid).validRows =
      (Backend.parseExcelGrid grid).data.length ∧
    ((Backend.parseExcelGrid grid).success = true ↔
      (Backend.parseExcelGrid grid).errors = []) := by
  simp only [Backend.parseExcelGrid]
  split
  · exact ⟨rfl, by simp⟩
  · split
    · exact ⟨rfl, by simp⟩
    · exact ⟨rfl, by simp [List.isEmpty_iff]⟩

/-- C6: every record a data row yields is built with the source's
defaulting policy: the identifier is the extracted cell when
non-empty, else `US-` followed by the 3-digit zero-padded row number;
`asA` defaults to `User`; `iWant` defaults to the description;
`soThat` defaults to `I can achieve my goal`; the remaining optional
fields are the extracted cells (empty string when absent); `tags` is
always the empty sequence and `priority` is always `medium`. -/
theorem claim6_story_defaults
    (mapping : Backend.ColumnMapping) (row : List String) (rowNumber : Nat)
    (s : Backend.GherkinUserStory)
    (h : Backend.parseRow row mapping rowNumber = .story s) :
    s.id = (if Backend.getCellValue row mapping.id = ""
            then "US-" ++ Backend.padStart3 rowNumber
            else Backend.getCellValue row mapping.id) ∧
    s.description = Backend.getCellValue row mapping.description ∧
    s.asA = (if Backend.getCellValue row mapping.asA = "" then "User"
             else Backend.getCellValue row mapping.asA) ∧
    s.iWant = (if Backend.getCellValue row mapping.iWant = "" then s.description
               else Backend.getCellValue row mapping.iWant) ∧
    s.soThat = (if Backend.getCellValue row mapping.soThat = ""
                then "I can achieve my goal"
                else Backend.getCellValue row mapping.soThat) ∧
    s.acceptanceCriteria = Backend.getCellValue row mapping.acceptanceCriteria ∧
    s.requirements = Backend.getCellValue row mapping.requirements ∧
    s.notes = Backend.getCellValue row mapping.notes ∧
    s.acId = Backend.getCellValue row mapping.acId ∧
    s.tags = some [] ∧
    s.priority = some "medium" := by
  simp only [Backend.parseRow] at h
  split at h
  · exact absurd h (by simp)
  · split at h
    · exact absurd h (by simp)
    · split at h
      · exact absurd h (by simp)
      · split at h
        · exact absurd h (by simp)
        · split at h
          · exact absurd h (by simp)
          · injection h with h2
            subst h2
            refine ⟨rfl, rfl, rfl, rfl, rfl, rfl, rfl, rfl, rfl, rfl, rfl⟩

/-- C6 witness: under the four-column mapping (no identifier column),
the data row at index 0 — row number 2 — yields the story with the
synthesized identifier `US-002` and all defaults applied. -/
theorem claim6_witness :
    Backend.parseRow ["Login works", "Given A", "When B", "Then C"]
        Backend.sampleMapping 2 = .story Backend.sampleStory ∧
    Backend.sampleStory.id = "US-002" ∧
    Backend.sampleStory.asA = "User" ∧
    Backend.sampleStory.iWant = "Login works" ∧
    Backend.sampleStory.soThat = "I can achieve my goal" ∧
    Backend.sampleStory.tags = some [] ∧
    Backend.sampleStory.priority = some "medium" := by
  have hp : Backend.parseRow ["Login works", "Given A", "When B", "Then C"]
      Backend.sampleMapping 2 = .story Backend.sampleStory := by decide
  have h := claim6_story_defaults Backend.sampleMapping
    ["Login works", "Given A", "When B", "Then C"] 2 Backend.sampleStory hp
  exact ⟨hp, h.1.trans (by decide), h.2.2.1.trans (by decide),
    (h.2.2.2.1.trans (by rw [h.2.1])).trans (by decide),
    h.2.2.2.2.1.trans (by decide), h.2.2.2.2.2.2.2.2.2.1, h.2.2.2.2.2.2.2.2.2.2⟩

/-- C7: for every (partial) record, the standalone validator's error
list contains exactly one `<FieldName> is required` entry for each of
description, given, when, then that is missing or empty after
trimming, plus exactly one distinct `should start with` entry for
each raw-non-empty given/when/then value whose lowercase form does not
start with `given`/`when`/`then`; it contains nothing else, and the
`valid` flag is true exactly when the list is empty. -/
theorem claim7_validator_errors (story : Backend.PartialStory) :
    ((Backend.validateUserStory story).valid = true ↔
      (Backend.validateUserStory story).errors = []) ∧
    (Backend.validateUserStory story).errors.count "Description is required" =
      (if Backend.trimmedEmpty story.description then 1 else 0) ∧
    (Backend.validateUserStory story).errors.count "Given condition is required" =
      (if Backend.trimmedEmpty story.given then 1 else 0) ∧
    (Backend.validateUserStory story).errors.count "When action is required" =
      (if Backend.trimmedEmpty story.whenF then 1 else 0) ∧
    (Backend.validateUserStory story).errors.count "Then result is required" =
      (if Backend.trimmedEmpty story.thenF then 1 else 0) ∧
    (Backend.validateUserStory story).errors.count
        "Given condition should start with \"Given\"" =
      (if Backend.failsConvention story.given "given" then 1 else 0) ∧
    (Backend.validateUserStory story).errors.count
        "When action should start with \"When\"" =
      (if Backend.failsConvention story.whenF "when" then 1 else 0) ∧
    (Backend.validateUserStory story).errors.count
        "Then result should start with \"Then\"" =
      (if Backend.failsConvention story.thenF "then" then 1 else 0) ∧
    (Backend.validateUserStory story).errors.length =
      (if Backend.trimmedEmpty story.description then 1 else 0) +
      (if Backend.trimmedEmpty story.given then 1 else 0) +
      (if Backend.trimmedEmpty story.whenF then 1 else 0) +
      (if Backend.trimmedEmpty story.thenF then 1 else 0) +
      (if Backend.failsConvention story.given "given" then 1 else 0) +
      (if Backend.failsConvention story.whenF "when" then 1 else 0) +
      (if Backend.failsConvention story.thenF "then" then 1 else 0) := by
  simp only [Backend.validateUserStory]
  cases hb1 : Backend.trimmedEmpty story.description <;>
    cases hb2 : Backend.trimmedEmpty story.given <;>
    cases hb3 : Backend.trimmedEmpty story.whenF <;>
    cases hb4 : Backend.trimmedEmpty story.thenF <;>
    cases hb5 : Backend.failsConvention story.given "given" <;>
    cases hb6 : Backend.failsConvention story.whenF "when" <;>
    cases hb7 : Backend.failsConvention story.thenF "then" <;> decide

/-- C8: for every generation context with `S` stories and `M`
selected modules, the deterministic mock provider emits exactly
`S × M × 3` artifacts when negative tests are enabled and `S × M × 2`
otherwise, and every edge artifact it constructs carries priority
`low`. -/
theorem claim8_mock_artifact_counts (context : TestGenerationContext) (now : Nat) :
    (AppsCopy.mockGenerateTestCases context now).testCases.length =
      context.userStories.length * context.selectedModules.length *
        (if context.includeNegativeTests then 3 else 2) ∧
    ∀ (story : Backend.GherkinUserStory) (module : String),
      (AppsCopy.createEdgeCaseTest story module context now).priority = "low" := by
  constructor
  · show (AppsCopy.mockTestCases context now).length = _
    unfold AppsCopy.mockTestCases
    have hpair : ∀ (story : Backend.GherkinUserStory) (module : String),
        ([AppsCopy.createPositiveTestCase story module context now] ++
          (if context.includeNegativeTests then
            [AppsCopy.createNegativeTestCase story module context now] else []) ++
          [AppsCopy.createEdgeCaseTest story module context now]).length =
        (if context.includeNegativeTests then 3 else 2) := by
      intro story module
      cases hneg : context.includeNegativeTests <;> simp [hneg]
    have hinner : ∀ story : Backend.GherkinUserStory,
        (context.selectedModules.flatMap fun module =>
          [AppsCopy.createPositiveTestCase story module context now] ++
          (if context.includeNegativeTests then
            [AppsCopy.createNegativeTestCase story module context now] else []) ++
          [AppsCopy.createEdgeCaseTest story module context now]).length =
        context.selectedModules.length *
          (if context.includeNegativeTests then 3 else 2) :=
      fun story => length_flatMap_const _ _ _ (hpair story)
    rw [length_flatMap_const _ _ _ hinner, Nat.mul_assoc]
  · intro story module
    rfl

/-- C9 (amended): for every *non-empty* provider name, requesting
generation through the registry with an unregistered name fails with
the NotFound-kind error, and requesting through a registered provider
whose configuration probe returns false fails with the
Misconfigured-kind error before delegating; the conclusion is a fixed
error value independent of every provider's generate function, so no
generate operation is invoked.  The non-emptiness hypothesis is forced
by the counterexample: `providerName || this.defaultProvider` routes
the empty-string name to the default provider instead of NotFound. -/
theorem claim9_registry_guards (svc : AppsCopy.AIService)
    (context : TestGenerationContext) (name : String) (hne : name ≠ "") :
    (svc.providers.lookup name = none →
      svc.generateTestCases context (some name) =
        .error (.notFound name)) ∧
    (∀ p, svc.providers.lookup name = some p →
      p.validateConfiguration () = false →
      svc.generateTestCases context (some name) =
        .error (.misconfigured name)) := by
  constructor
  · intro hlk
    simp only [AppsCopy.AIService.generateTestCases, if_neg hne]
    rw [hlk]
  · intro p hlk hcfg
    simp only [AppsCopy.AIService.generateTestCases, if_neg hne]
    rw [hlk]
    simp [hcfg]

/-- C9 witness: against a registry holding only the mock provider, the
unregistered name `nope` fails NotFound; against a registry holding
only a provider whose probe fails, the name `bad` fails
Misconfigured. -/
theorem claim9_witness :
    AppsCopy.svc0.generateTestCases AppsCopy.ctx0 (some "nope") =
      .error (.notFound "nope") ∧
    AppsCopy.svc1.generateTestCases AppsCopy.ctx0 (some "bad") =
      .error (.misconfigured "bad") :=
  ⟨(claim9_registry_guards AppsCopy.svc0 AppsCopy.ctx0 "nope" (by decide)).1 rfl,
   (claim9_registry_guards AppsCopy.svc1 AppsCopy.ctx0 "bad" (by decide)).2
     AppsCopy.badProvider rfl rfl⟩

/-- C9 counterexample: the empty string is a provider name that is not
registered, yet requesting generation with it does not fail with a
NotFound-kind error — `providerName || this.defaultProvider` silently
falls back to the default provider, whose generate operation *is*
invoked and whose result is returned. -/
theorem claim9_counterexample :
    AppsCopy.svc0.providers.lookup "" = none ∧
    AppsCopy.svc0.generateTestCases AppsCopy.ctx0 (some "") =
      .ok (AppsCopy.mockGenerateTestCases AppsCopy.ctx0 0) :=
  ⟨rfl, rfl⟩

/-- C10 (amended): whenever the external call of a remote-backend
adapter throws, returns no content, or returns content that fails to
parse, the adapter returns — never throws — a result with zero
artifacts, `metadata` recording one failure and zero successes, and
the single descriptive warning `Generation failed: <message>`.  (The
adapters' result type has no `success` field; see the
counterexample.) -/
theorem claim10_adapter_failure_isolation (model : String)
    (parseJson : String → Except String Backend.ParsedResponse)
    (elapsed : Nat) (msg content : String) (tokensUsed : Option Nat) :
    failureShape
      (Backend.openaiGenerateTestCases model (.threw msg) parseJson elapsed) msg ∧
    failureShape
      (Backend.openaiGenerateTestCases model (.returned none tokensUsed)
        parseJson elapsed)
      "No content received from OpenAI" ∧
    (parseJson content = .error msg →
      failureShape
        (Backend.openaiGenerateTestCases model (.returned (some content) tokensUsed)
          parseJson elapsed) msg) ∧
    failureShape
      (Backend.geminiGenerateTestCases model (.error msg) parseJson elapsed) msg ∧
    (parseJson (jsTrim (String.mk (Backend.stripFences content.data))) = .error msg →
      failureShape
        (Backend.geminiGenerateTestCases model (.ok content) parseJson elapsed)
        msg) := by
  refine ⟨⟨rfl, rfl, rfl, rfl, rfl⟩, ⟨rfl, rfl, rfl, rfl, rfl⟩, ?_, ⟨rfl, rfl, rfl, rfl, rfl⟩, ?_⟩
  · intro hp
    simp only [Backend.openaiGenerateTestCases]
    rw [hp]
    exact ⟨rfl, rfl, rfl, rfl, rfl⟩
  · intro hp
    simp only [Backend.geminiGenerateTestCases]
    rw [hp]
    exact ⟨rfl, rfl, rfl, rfl, rfl⟩

/-- C10 witness: with a parse oracle that always throws, a thrown
OpenAI call and an unparsable Gemini response both produce the
zero-artifact failure result with its descriptive warning. -/
theorem claim10_witness :
    failureShape
      (Backend.openaiGenerateTestCases "gpt-4" (.threw "boom") Backend.parse0 5)
      "boom" ∧
    failureShape
      (Backend.geminiGenerateTestCases "gemini-pro" (.ok "not json") Backend.parse0 7)
      "Unexpected token" :=
  ⟨(claim10_adapter_failure_isolation "gpt-4" Backend.parse0 5 "boom" "x" none).1,
   (claim10_adapter_failure_isolation "gemini-pro" Backend.parse0 7
      "Unexpected token" "not json" none).2.2.2.2 rfl⟩

/-- C10 counterexample: the claim requires the failure result to carry
`success = false`, but the adapters' `TestGenerationResult` interface
has no `success` property at all — at a concrete failing call the
adapter returns the zero-artifact warning-bearing record, and
`success` is not among that record's fields. -/
theorem claim10_counterexample :
    "success" ∉ Backend.testGenerationResultFields ∧
    (Backend.openaiGenerateTestCases "gpt-4" (.threw "boom")
        Backend.parse0 5).testCases = [] ∧
    (Backend.openaiGenerateTestCases "gpt-4" (.threw "boom")
        Backend.parse0 5).metadata.warnings = ["Generation failed: boom"] := by
  refine ⟨by decide, rfl, rfl⟩
